import Mathlib

/-!
Verification of the View Tours landmark-identification client.

The repository contains several near-duplicate React application variants
sharing one workflow.  This file gives a shallow embedding of the state and
of the operations the specification talks about:

* the re-verify / podcast variant (src/unnamed/part_000, first component):
  analyzeImage, generatePodcast, the re-verify button;
* the search / nearby / text-to-speech variant (src/App.tsx, second
  component): performAnalysis, handleSearch, startCamera, readText and the
  nearby-landmark display filter;
* the shared helper cleanJsonString.

External platform services (the generative backend, JSON.parse, the speech
synthesis engine, the camera) are modelled at their interface boundary:
backend calls become an explicit outcome argument, JSON.parse becomes an
executable parser over a JSON value type, the speech engine becomes a list
of alive utterances.  State setters become record updates on explicit
session-state structures.
-/

/-! ## JSON values and a model of the platform JSON.parse

The applications feed backend text straight into the platform JSON.parse
and then read fields off the parsed value without validation.  jsonParse
below is an executable boundary model of JSON.parse: objects, arrays,
strings with the common escapes, integer numbers, booleans and null.
-/

inductive JVal where
  | jnull
  | jbool (b : Bool)
  | jnum (n : Int)
  | jstr (s : String)
  | jarr (elems : List JVal)
  | jobj (fields : List (String × JVal))
deriving Repr, Inhabited

/-- Whitespace as stripped by JSON.parse and by String.prototype.trim
(the code points the repository's strings actually contain). -/
def isWs (c : Char) : Bool :=
  c == ' ' || c == '\t' || c == '\n' || c == '\r'

/-- Parse the body of a JSON string literal after the opening quote:
returns the decoded characters and the remainder after the closing quote. -/
def parseStrBody : List Char → Option (List Char × List Char)
  | [] => none
  | c :: rest =>
    if c == '"' then some ([], rest)
    else if c == '\\' then
      match rest with
      | [] => none
      | e :: rest₂ =>
        let dec : Option Char :=
          if e == '"' then some '"'
          else if e == '\\' then some '\\'
          else if e == '/' then some '/'
          else if e == 'n' then some '\n'
          else if e == 't' then some '\t'
          else if e == 'r' then some '\r'
          else none
        match dec with
        | none => none
        | some d =>
          match parseStrBody rest₂ with
          | none => none
          | some (cs, r) => some (d :: cs, r)
    else
      match parseStrBody rest with
      | none => none
      | some (cs, r) => some (c :: cs, r)

/-- Accumulate a run of decimal digits into a natural number. -/
def parseDigitsAux (acc : Nat) : List Char → Nat × List Char
  | [] => (acc, [])
  | c :: rest =>
    if c.isDigit then parseDigitsAux (acc * 10 + (c.toNat - 48)) rest
    else (acc, c :: rest)

/-- Parse a run of decimal digits (at least one). -/
def parseDigits : List Char → Option (Nat × List Char)
  | [] => none
  | c :: rest =>
    if c.isDigit then some (parseDigitsAux (c.toNat - 48) rest)
    else none

mutual

/-- Boundary model of JSON.parse on a value, with fuel bounding the
nesting depth.  Returns the value and the unconsumed remainder. -/
def parseVal : Nat → List Char → Option (JVal × List Char)
  | 0, _ => none
  | fuel + 1, s =>
    let s := s.dropWhile isWs
    match s with
    | [] => none
    | c :: rest =>
      if c == 'n' then
        if ['u', 'l', 'l'].isPrefixOf rest then some (.jnull, rest.drop 3) else none
      else if c == 't' then
        if ['r', 'u', 'e'].isPrefixOf rest then some (.jbool true, rest.drop 3) else none
      else if c == 'f' then
        if ['a', 'l', 's', 'e'].isPrefixOf rest then some (.jbool false, rest.drop 4) else none
      else if c == '"' then
        match parseStrBody rest with
        | none => none
        | some (cs, r) => some (.jstr (String.mk cs), r)
      else if c == '[' then
        match rest.dropWhile isWs with
        | ']' :: r₂ => some (.jarr [], r₂)
        | r₂ => (parseArrElems fuel r₂).map fun p => (.jarr p.1, p.2)
      else if c == '\x7b' then
        match rest.dropWhile isWs with
        | '\x7d' :: r₂ => some (.jobj [], r₂)
        | r₂ => (parseObjMembers fuel r₂).map fun p => (.jobj p.1, p.2)
      else if c == '-' then
        match parseDigits rest with
        | some (n, r) => some (.jnum (-(n : Int)), r)
        | none => none
      else if c.isDigit then
        match parseDigits (c :: rest) with
        | some (n, r) => some (.jnum (n : Int), r)
        | none => none
      else none

/-- Parse one or more comma-separated array elements up to the closing
bracket. -/
def parseArrElems : Nat → List Char → Option (List JVal × List Char)
  | 0, _ => none
  | fuel + 1, s =>
    match parseVal fuel s with
    | none => none
    | some (v, r) =>
      match r.dropWhile isWs with
      | ',' :: r₂ =>
        match parseArrElems fuel r₂ with
        | none => none
        | some (vs, r₃) => some (v :: vs, r₃)
      | ']' :: r₂ => some ([v], r₂)
      | _ => none

/-- Parse one or more comma-separated object members up to the closing
brace. -/
def parseObjMembers : Nat → List Char → Option (List (String × JVal) × List Char)
  | 0, _ => none
  | fuel + 1, s =>
    match s.dropWhile isWs with
    | '"' :: r =>
      match parseStrBody r with
      | none => none
      | some (key, r₂) =>
        match r₂.dropWhile isWs with
        | ':' :: r₃ =>
          match parseVal fuel r₃ with
          | none => none
          | some (v, r₄) =>
            match r₄.dropWhile isWs with
            | ',' :: r₅ =>
              match parseObjMembers fuel r₅ with
              | none => none
              | some (ms, r₆) => some ((String.mk key, v) :: ms, r₆)
            | '\x7d' :: r₅ => some ([(String.mk key, v)], r₅)
            | _ => none
        | _ => none
    | _ => none

end

/-- Boundary model of the platform JSON.parse: parse the whole string,
rejecting trailing garbage. -/
def jsonParse (s : String) : Option JVal :=
  match parseVal (s.length + 1) s.toList with
  | some (v, r) => if (r.dropWhile isWs).isEmpty then some v else none
  | none => none

/-! ## JavaScript string and truthiness helpers -/

/-- Model of the JavaScript string trim: drop leading and trailing
whitespace characters. -/
def trimL (l : List Char) : List Char :=
  ((l.dropWhile isWs).reverse.dropWhile isWs).reverse

/-- String.prototype.trim, as used by handleSearch, by the nearby-landmark
filter and by cleanJsonString. -/
def trimStr (s : String) : String :=
  String.mk (trimL s.toList)

/-- The backquote character (code point 96). -/
def bq : Char := Char.ofNat 96

/-- The three-backquote markup fence. -/
def fence : List Char := [bq, bq, bq]

/-- The fence immediately followed by the word json. -/
def fenceJson : List Char := fence ++ ['j', 's', 'o', 'n']

/-- The first global-regex replacement of cleanJsonString: scan left to
right and delete every non-overlapping occurrence of the seven-character
fence-json pattern. -/
def removeFenceJson : List Char → List Char
  | c1 :: c2 :: c3 :: c4 :: c5 :: c6 :: c7 :: rest =>
    if c1 = bq ∧ c2 = bq ∧ c3 = bq ∧ c4 = 'j' ∧ c5 = 's' ∧ c6 = 'o' ∧ c7 = 'n' then
      removeFenceJson rest
    else c1 :: removeFenceJson (c2 :: c3 :: c4 :: c5 :: c6 :: c7 :: rest)
  | s => s

/-- The second global-regex replacement of cleanJsonString: scan left to
right and delete every non-overlapping occurrence of the three-backquote
fence. -/
def removeFence : List Char → List Char
  | c1 :: c2 :: c3 :: rest =>
    if c1 = bq ∧ c2 = bq ∧ c3 = bq then removeFence rest
    else c1 :: removeFence (c2 :: c3 :: rest)
  | s => s

/-- src/App.tsx line 346 (also src/unnamed/part_000 lines 481-483 and
src/unnamed/part_001 lines 119-121): strip the backquote-json fence, then
every remaining three-backquote fence, then trim. -/
def cleanJsonString (s : String) : String :=
  String.mk (trimL (removeFence (removeFenceJson s.toList)))

/-- ASCII lowercase of a character (what a case-insensitive comparison of
the titles in this repository comes down to). -/
def lowerChar (c : Char) : Char :=
  if 'A' ≤ c ∧ c ≤ 'Z' then Char.ofNat (c.toNat + 32) else c

/-- ASCII lowercase of a string. -/
def lowerStr (s : String) : String :=
  String.mk (s.toList.map lowerChar)

/-- JavaScript truthiness of a JSON value (null, false, 0 and the empty
string are falsy; every array and object is truthy). -/
def jTruthy : JVal → Bool
  | .jnull => false
  | .jbool b => b
  | .jnum n => n != 0
  | .jstr s => s != ""
  | .jarr _ => true
  | .jobj _ => true

/-- Property access data.k on a parsed JSON value: a field of an object,
undefined (none) otherwise. -/
def jLookup (v : JVal) (k : String) : Option JVal :=
  match v with
  | .jobj fields => fields.lookup k
  | _ => none

mutual

/-- JavaScript string coercion of a JSON value, used when a duck-typed
field flows into a string position. -/
def jDisplay : JVal → String
  | .jnull => "null"
  | .jbool true => "true"
  | .jbool false => "false"
  | .jnum n => toString n
  | .jstr s => s
  | .jarr xs => jDisplayList xs
  | .jobj _ => "[object Object]"

/-- Array.prototype.toString: elements joined with commas. -/
def jDisplayList : List JVal → String
  | [] => ""
  | [x] => jDisplay x
  | x :: xs => jDisplay x ++ "," ++ jDisplayList xs

end

/-- The JavaScript pattern data.k || fallback as applied to a string
field: the field's value when present and truthy, the fallback
otherwise. -/
def jFieldStringOr (v : JVal) (k fallback : String) : String :=
  match jLookup v k with
  | some x => if jTruthy x then jDisplay x else fallback
  | none => fallback

/-- The JavaScript pattern a || b on strings (the empty string is
falsy). -/
def jsOrElse (a b : String) : String :=
  if a = "" then b else a

/-- The text that the JavaScript source writes as a two-character
brace-pair object literal and feeds to JSON.parse when the response body
is empty. -/
def jEmptyObjText : String := "\x7b\x7d"

/-- split at commas and take component 1: the payload of a data URL such
as data:image/jpeg;base64,XXXX (base64 text contains no comma). -/
def dataUrlPayload (s : String) : String :=
  String.mk ((((s.toList).dropWhile (fun c => c != ',')).drop 1).takeWhile (fun c => c != ','))

/-! ## Backend gateway boundary -/

/-- Outcome of one backend call as seen by the caller: either the call
threw (transport failure) or it resolved with a response whose text
accessor yields the given string (the empty string standing for an absent
text field). -/
inductive GatewayOutcome where
  | transportError
  | response (text : String)
deriving Repr

/-- The request a component hands to the backend gateway for one call. -/
structure GenRequest where
  modelName : String
  promptText : String
  imageData : Option String
  temperature : Option ℚ
deriving Repr

/-! ## Narration controller

Shared by the App.tsx search variant (lines 422-432) and the
src/unnamed/part_000 nearby variant (lines 614-627); both readText bodies
are identical.  The speech engine is modelled by the list of alive
utterances (window.speechSynthesis.speaking is its non-emptiness) and the
component state readingSection by the active field; an utterance's onstart
handler sets the active section when speak begins it, and cancel fires the
end events of the utterances it kills, resetting the section.
-/

structure Utterance where
  text : String
  section_ : String
deriving Repr, DecidableEq

structure NarrationState where
  alive : List Utterance
  active : Option String
deriving Repr, DecidableEq, Inhabited

/-- window.speechSynthesis.cancel plus the onend handlers of the cancelled
utterances (each handler sets the reading section to null). -/
def cancelSpeech (_ : NarrationState) : NarrationState :=
  { alive := [], active := none }

/-- readText (src/App.tsx lines 422-432 / src/unnamed/part_000 lines
614-627): when the engine is speaking, cancel; if the tapped section was
the active one, stop there (toggle off); otherwise speak one fresh
utterance for the tapped section. -/
def readText (text sectionId : String) (s : NarrationState) : NarrationState :=
  if !s.alive.isEmpty then
    -- window.speechSynthesis.speaking: cancel first
    if s.active = some sectionId then
      { alive := [], active := none }
    else
      { alive := [⟨text, sectionId⟩], active := some sectionId }
  else
    { alive := s.alive ++ [⟨text, sectionId⟩], active := some sectionId }

/-- Modelled from the spec: the section 4.4 narration transition table.
Speaking(section) is the state whose active section is that section;
Silent is the state with no active section and nothing alive.  read on the
speaking section cancels and returns to Silent; read on another section
(or from Silent) ends up Speaking the new section with one utterance. -/
def narrationSpecStep (text sectionId : String) (s : NarrationState) : NarrationState :=
  match s.active with
  | some current =>
    if current = sectionId then { alive := [], active := none }
    else { alive := [⟨text, sectionId⟩], active := some sectionId }
  | none => { alive := [⟨text, sectionId⟩], active := some sectionId }

/-- A narration state is coherent when a recorded active section implies
the engine is speaking. -/
def NarrationWf (s : NarrationState) : Prop :=
  s.active ≠ none → s.alive ≠ []

instance (s : NarrationState) : Decidable (NarrationWf s) := by
  unfold NarrationWf; infer_instance

/-! ## The re-verify / podcast variant (src/unnamed/part_000, lines 1-406)

Session state of the component: captured image, camera flag, loading
flags, current result, derivative podcast script, error message.  A calls
counter records how many backend requests have been issued, so that the
absence of a network call is provable.
-/

/-- The normalized analysis record the component stores (setResult at
lines 111-118 fills every field, so none is optional here). -/
structure AnalysisResultC where
  title : String
  history : String
  architecture : String
  funFacts : List JVal
  uncertain : Bool
  message : String
deriving Repr, Inhabited

/-- The derivative podcast script, tagged with the title it was generated
for. -/
structure PodcastScript where
  title : String
  script : String
deriving Repr, DecidableEq

structure StateC where
  image : Option String
  isScanning : Bool
  loading : Bool
  podcastLoading : Bool
  result : Option AnalysisResultC
  podcastScript : Option PodcastScript
  error : Option String
  calls : Nat
deriving Repr, Inhabited

/-- Error message of the analyze catch branch (line 121). -/
def analyzeErrMsgC : String := "حدث خطأ أثناء الفحص. يرجى المحاولة مرة أخرى."

/-- Error message of the podcast catch branch (line 166). -/
def podcastErrMsgC : String := "فشل إنشاء البودكاست."

/-- The fixed part of the analyze prompt before the spot where the
re-verify sentence is interpolated (line 76). -/
def analyzePromptHead : String :=
  "أنت خبير تدقيق معماري وتاريخي عالمي. \n      "

/-- The sentence interpolated into the prompt only when re-verifying
(line 77). -/
def reverifyNote : String :=
  "هام: المستخدم يشك في النتيجة السابقة، قم بإجراء تدقيق معماري مضاعف ومقارنة دقيقة جداً للأنماط المعمارية."

/-- The fixed part of the analyze prompt after the interpolation spot
(lines 78-92), with the braces of the embedded JSON template written as
escapes. -/
def analyzePromptTail : String :=
  "\n      مهمتك السرية:\n      1. حلل الصورة لتعيين الموقع والمبنى بدقة.\n      2. طابق العناصر البصرية (المواد، النمط، الزخارف) مع قاعدة البيانات الجغرافية.\n      3. لا تعرض المعلومات إلا إذا كنت متأكداً بنسبة 100%.\n      4. إذا كان هناك احتمال للخطأ، اجعل uncertain: true.\n\n      أعد النتيجة بتنسيق JSON حصراً:\n      \x7b\n        \"title\": \"اسم المعلم المؤكد\",\n        \"history\": \"سرد تاريخي موثق\",\n        \"architecture\": \"تحليل هندسي للطراز\",\n        \"funFacts\": [\"حقيقة 1\", \"حقيقة 2\", \"حقيقة 3\"],\n        \"uncertain\": boolean,\n        \"message\": \"رسالة توضيحية في حال عدم التأكد\"\n      \x7d"

/-- The request analyzeImage sends (lines 94-106): flash model, the data
URL payload as inline image, re-verify lowering the temperature from 0.1
to 0.05 and interpolating the stricter cross-check sentence. -/
def analyzeRequest (base64Data : String) (isReverify : Bool) : GenRequest :=
  { modelName := "gemini-3-flash-preview"
    promptText := analyzePromptHead ++ (if isReverify then reverifyNote else "") ++ analyzePromptTail
    imageData := some (dataUrlPayload base64Data)
    temperature := some (if isReverify then (5 : ℚ) / 100 else (1 : ℚ) / 10) }

/-- Normalization applied by setResult at lines 111-118: every field is
read off the duck-typed parsed value with a JavaScript or-else fallback,
uncertain is coerced with a double negation. -/
def normalizeAnalysis (data : JVal) : AnalysisResultC :=
  { title := jFieldStringOr data "title" "معلم غير معروف"
    history := jFieldStringOr data "history" "المعلومات غير متوفرة حالياً."
    architecture := jFieldStringOr data "architecture" "التفاصيل غير متوفرة."
    funFacts := match jLookup data "funFacts" with
                | some (.jarr xs) => xs
                | _ => []
    uncertain := match jLookup data "uncertain" with
                 | some v => jTruthy v
                 | none => false
    message := jFieldStringOr data "message" "" }

/-- analyzeImage (src/unnamed/part_000 lines 65-125) run to completion
with the given backend outcome.  Re-verify skips the clearing of the
previous result and of the podcast script; the catch branch covers both
the transport failure and a JSON.parse failure. -/
def analyzeImage (s : StateC) (base64Data : String) (isReverify : Bool)
    (outcome : GatewayOutcome) : StateC :=
  let s := { s with loading := true, error := none }
  let s := if isReverify then s else { s with podcastScript := none, result := none }
  let s := { s with calls := s.calls + 1 }
  match outcome with
  | .transportError => { s with error := some analyzeErrMsgC, loading := false }
  | .response text =>
    match jsonParse (jsOrElse text jEmptyObjText) with
    | some data => { s with result := some (normalizeAnalysis data), loading := false }
    | none => { s with error := some analyzeErrMsgC, loading := false }

/-- generatePodcast (src/unnamed/part_000 lines 152-170) run to completion:
gated on a present, confident result; on success stores the script tagged
with the current title; the catch branch covers transport and parse
failures. -/
def generatePodcast (s : StateC) (outcome : GatewayOutcome) : StateC :=
  match s.result with
  | none => s
  | some r =>
    if r.uncertain then s
    else
      let s := { s with podcastLoading := true, calls := s.calls + 1 }
      match outcome with
      | .transportError => { s with error := some podcastErrMsgC, podcastLoading := false }
      | .response text =>
        match jsonParse (jsOrElse text jEmptyObjText) with
        | some data =>
          { s with podcastScript := some ⟨r.title, jFieldStringOr data "script" "جاري التجهيز..."⟩
                   podcastLoading := false }
        | none => { s with error := some podcastErrMsgC, podcastLoading := false }

/-- The re-verify button (src/unnamed/part_000 lines 269-278): enabled on
the captured image, re-running analyzeImage with isReverify set. -/
def reverifyClick (s : StateC) (outcome : GatewayOutcome) : StateC :=
  match s.image with
  | some img => analyzeImage s img true outcome
  | none => s

/-! ## The search / nearby / text-to-speech variant (src/App.tsx, lines
277-629)

Session state of the component.  The component stores whatever JSON.parse
produced as its result (setResult(data) at line 378 is duck-typed), so the
result field holds a raw parsed value here.
-/

/-- A nearby landmark entry as typed in this variant (line 288-293). -/
structure NearbyLandmark where
  name : String
  distance : String
  brief : String
  icon : String
deriving Repr, DecidableEq

structure StateB where
  searchText : String
  isScanning : Bool
  loading : Bool
  nearbyLoading : Bool
  narration : NarrationState
  result : Option JVal
  allDiscoveredLandmarks : List NearbyLandmark
  error : Option String
  calls : Nat
deriving Repr, Inhabited

/-- Error message of the performAnalysis catch branch (line 381). -/
def analysisErrMsgB : String := "تعذر استحضار المخطوطة حالياً."

/-- stopCamera (lines 337-344): stop the stream tracks and leave the
scanning view. -/
def stopCameraB (s : StateB) : StateB :=
  { s with isScanning := false }

/-- performAnalysis (src/App.tsx lines 348-385) run to completion with the
given backend outcome: enter loading, clear the error, cancel speech,
clear the discovered-landmark list unless asked to keep it, then parse
response.text || the empty object literal through cleanJsonString and
store the parsed value as the result; the catch branch covers transport
and parse failures. -/
def performAnalysis (s : StateB) (imageData : Option String) (keepNearby : Bool)
    (outcome : GatewayOutcome) : StateB :=
  let s := { s with loading := true, error := none
                    narration := cancelSpeech s.narration
                    allDiscoveredLandmarks :=
                      if keepNearby then s.allDiscoveredLandmarks else [] }
  let s := { s with calls := s.calls + 1 }
  match outcome with
  | .transportError => { s with error := some analysisErrMsgB, loading := false }
  | .response text =>
    match jsonParse (cleanJsonString (jsOrElse text jEmptyObjText)) with
    | some data => { s with result := some data, loading := false }
    | none => { s with error := some analysisErrMsgB, loading := false }

/-- handleSearch (src/App.tsx lines 387-392): an empty or whitespace-only
search text returns before any effect; otherwise stop the camera and run
the text analysis. -/
def handleSearch (s : StateB) (outcome : GatewayOutcome) : StateB :=
  if trimStr s.searchText = "" then s
  else performAnalysis (stopCameraB s) none false outcome

/-- Effects a component issues to the outside world, in order. -/
inductive ExtCall where
  | speechCancel
  | requestStream
deriving Repr, DecidableEq

/-- startCamera (src/App.tsx lines 316-335): the part that runs before the
device-stream request resolves, paired with the chronological list of
external calls it makes.  It clears the result, the error, the reading
section and the discovered-landmark list, cancels speech, and only then
requests the device stream. -/
def startCamera (s : StateB) : StateB × List ExtCall :=
  ({ s with isScanning := true
            result := none
            error := none
            narration := cancelSpeech { s.narration with active := none }
            allDiscoveredLandmarks := [] },
   [ExtCall.speechCancel, ExtCall.requestStream])

/-- The nearby-landmark display filter (src/App.tsx lines 581-584): the
card list drops every entry whose trimmed name equals the trimmed current
title. -/
def visibleLandmarks (landmarks : List NearbyLandmark) (title : String) :
    List NearbyLandmark :=
  landmarks.filter fun l => trimStr l.name != trimStr title

/-! ## Properties of the fence-stripping normalizer -/

theorem removeFence_head {u v : List Char} (h : removeFence u = bq :: v) :
    ∃ u', u = bq :: u' := by
  rcases u with _ | ⟨c1, _ | ⟨c2, _ | ⟨c3, rest⟩⟩⟩
  · simp [removeFence] at h
  · simp only [removeFence] at h
    exact ⟨[], by simp [List.cons.injEq] at h; simp [h.1]⟩
  · simp only [removeFence] at h
    exact ⟨[c2], by simp [List.cons.injEq] at h; simp [h.1]⟩
  · simp only [removeFence] at h
    split at h
    · next hg => exact ⟨c2 :: c3 :: rest, by simp [hg.1]⟩
    · next hg =>
      refine ⟨c2 :: c3 :: rest, ?_⟩
      have : c1 = bq := by
        have := congrArg List.head? h
        simpa using this
      simp [this]

theorem removeFence_prefix2 {u : List Char} (h : [bq, bq] <+: removeFence u) :
    [bq, bq] <+: u := by
  rcases u with _ | ⟨c1, _ | ⟨c2, _ | ⟨c3, rest⟩⟩⟩
  · simp [removeFence] at h
  · simp only [removeFence] at h
    have := h.length_le
    simp at this
  · simp only [removeFence] at h
    rw [List.cons_prefix_cons] at h
    obtain ⟨h1, h2⟩ := h
    rw [List.cons_prefix_cons] at h2
    obtain ⟨h2, -⟩ := h2
    subst h1; subst h2
    exact List.prefix_rfl
  · simp only [removeFence] at h
    split at h
    · next hg => exact ⟨c3 :: rest, by simp [hg.1, hg.2.1]⟩
    · next hg =>
      rw [List.cons_prefix_cons] at h
      obtain ⟨h1, h2⟩ := h
      have hb : ∃ w, removeFence (c2 :: c3 :: rest) = bq :: w := by
        rcases h2 with ⟨t, ht⟩
        exact ⟨t, by simpa using ht.symm⟩
      obtain ⟨w, hw⟩ := hb
      obtain ⟨u', hu'⟩ := removeFence_head hw
      simp only [List.cons.injEq] at hu'
      exact ⟨c3 :: rest, by simp [h1, hu'.1]⟩

theorem removeFence_no_fence : ∀ u : List Char, ¬ fence <:+: removeFence u
  | [] => by intro h; have := h.length_le; simp [fence, removeFence] at this
  | [c1] => by intro h; have := h.length_le; simp [fence, removeFence] at this
  | [c1, c2] => by intro h; have := h.length_le; simp [fence, removeFence] at this
  | c1 :: c2 :: c3 :: rest => by
    simp only [removeFence]
    split
    · exact removeFence_no_fence rest
    · next hg =>
      intro h
      rcases List.infix_cons_iff.mp h with hpre | hinf
      · rw [show fence = bq :: [bq, bq] from rfl, List.cons_prefix_cons] at hpre
        obtain ⟨h1, h2⟩ := hpre
        have h3 := removeFence_prefix2 h2
        rw [List.cons_prefix_cons] at h3
        obtain ⟨h4, h5⟩ := h3
        rw [List.cons_prefix_cons] at h5
        obtain ⟨h6, -⟩ := h5
        exact hg ⟨h1.symm, h4.symm, h6.symm⟩
      · exact removeFence_no_fence (c2 :: c3 :: rest) hinf

theorem removeFence_eq_self : ∀ {u : List Char}, ¬ fence <:+: u → removeFence u = u
  | [], _ => rfl
  | [_], _ => rfl
  | [_, _], _ => rfl
  | c1 :: c2 :: c3 :: rest, h => by
    simp only [removeFence]
    split
    · next hg =>
      exact absurd (List.IsPrefix.isInfix ⟨rest, by simp [fence, hg.1, hg.2.1, hg.2.2]⟩) h
    · next hg =>
      have hx : ¬ fence <:+: (c2 :: c3 :: rest) := fun hi =>
        h (List.infix_cons_iff.mpr (Or.inr hi))
      rw [removeFence_eq_self hx]

theorem removeFenceJson_eq_self : ∀ {u : List Char}, ¬ fenceJson <:+: u → removeFenceJson u = u
  | [], _ => rfl
  | [_], _ => rfl
  | [_, _], _ => rfl
  | [_, _, _], _ => rfl
  | [_, _, _, _], _ => rfl
  | [_, _, _, _, _], _ => rfl
  | [_, _, _, _, _, _], _ => rfl
  | c1 :: c2 :: c3 :: c4 :: c5 :: c6 :: c7 :: rest, h => by
    simp only [removeFenceJson]
    split
    · next hg =>
      refine absurd (List.IsPrefix.isInfix ⟨rest, ?_⟩) h
      simp [fenceJson, fence, hg.1, hg.2.1, hg.2.2.1, hg.2.2.2.1, hg.2.2.2.2.1,
            hg.2.2.2.2.2.1, hg.2.2.2.2.2.2]
    · next hg =>
      have hx : ¬ fenceJson <:+: (c2 :: c3 :: c4 :: c5 :: c6 :: c7 :: rest) := fun hi =>
        h (List.infix_cons_iff.mpr (Or.inr hi))
      rw [removeFenceJson_eq_self hx]

theorem head_dropWhile_ws : ∀ {l : List Char} {c : Char},
    (l.dropWhile isWs).head? = some c → isWs c = false
  | [], _, h => by simp at h
  | a :: t, c, h => by
    rw [List.dropWhile_cons] at h
    split at h
    · exact head_dropWhile_ws h
    · next ha =>
      simp only [List.head?_cons, Option.some.injEq] at h
      subst h
      simpa using ha

theorem dropWhile_eq_self_ws {l : List Char}
    (h : ∀ c, l.head? = some c → isWs c = false) : l.dropWhile isWs = l := by
  cases l with
  | nil => rfl
  | cons a t =>
    have := h a (by simp)
    simp [List.dropWhile_cons, this]

theorem dropWhile_ws_idem (l : List Char) :
    (l.dropWhile isWs).dropWhile isWs = l.dropWhile isWs :=
  dropWhile_eq_self_ws fun _ hc => head_dropWhile_ws hc

theorem suffix_getLast? {s t : List Char} (h : s <:+ t) (hs : s ≠ []) :
    s.getLast? = t.getLast? := by
  obtain ⟨u, rfl⟩ := h
  rw [List.getLast?_append]
  cases hx : s.getLast? with
  | none => exact absurd (List.getLast?_eq_none_iff.mp hx) hs
  | some x => rfl

theorem trimL_within (l : List Char) : trimL l <:+: l := by
  unfold trimL
  have h1 : l.dropWhile isWs <:+ l := List.dropWhile_suffix isWs
  have h2 : (l.dropWhile isWs).reverse.dropWhile isWs <:+ (l.dropWhile isWs).reverse :=
    List.dropWhile_suffix isWs
  obtain ⟨u, hu⟩ := h2
  have h3 : ((l.dropWhile isWs).reverse.dropWhile isWs).reverse <+: l.dropWhile isWs :=
    ⟨u.reverse, by rw [← List.reverse_append, hu, List.reverse_reverse]⟩
  exact h3.isInfix.trans h1.isInfix

theorem trimL_idem (l : List Char) : trimL (trimL l) = trimL l := by
  have hC : ∀ c, ((l.dropWhile isWs).reverse.dropWhile isWs).reverse.head? = some c →
      isWs c = false := by
    intro c hc
    rcases hd : (l.dropWhile isWs).reverse.dropWhile isWs with _ | ⟨x, xs⟩
    · rw [hd] at hc; simp at hc
    · rw [hd] at hc
      rw [List.head?_reverse] at hc
      have hne : (l.dropWhile isWs).reverse.dropWhile isWs ≠ [] := by simp [hd]
      have hgl : ((l.dropWhile isWs).reverse.dropWhile isWs).getLast? =
          ((l.dropWhile isWs).reverse).getLast? :=
        suffix_getLast? (List.dropWhile_suffix isWs) hne
      rw [hd] at hgl
      rw [hgl, List.getLast?_reverse] at hc
      exact head_dropWhile_ws hc
  show ((((trimL l).dropWhile isWs).reverse).dropWhile isWs).reverse = trimL l
  have e1 : (trimL l).dropWhile isWs = trimL l := dropWhile_eq_self_ws hC
  rw [e1]
  show ((((l.dropWhile isWs).reverse.dropWhile isWs).reverse).reverse.dropWhile isWs).reverse
      = trimL l
  rw [List.reverse_reverse, dropWhile_ws_idem]
  rfl

theorem fence_pref_fenceJson : fence <+: fenceJson := ⟨['j', 's', 'o', 'n'], rfl⟩


/-! ## Claim theorems -/

/-- A blank session of the re-verify / podcast variant, with the image the
user captured. -/
def c1Start : StateC :=
  { image := some "data:image/jpeg;base64,QUFB", isScanning := false, loading := false,
    podcastLoading := false, result := none, podcastScript := none, error := none,
    calls := 0 }

/-- Backend answer identifying the subject as Tower A. -/
def c1RespA : String :=
  "\x7b\"title\":\"Tower A\",\"history\":\"h\",\"architecture\":\"a\",\"funFacts\":[\"f\"],\"uncertain\":false\x7d"

/-- Backend answer to the podcast request. -/
def c1RespPod : String := "\x7b\"script\":\"sc\"\x7d"

/-- Backend answer of the re-verify pass, identifying the subject as
Tower B instead. -/
def c1RespB : String := "\x7b\"title\":\"Tower B\",\"uncertain\":false\x7d"

/-- The session after identify (Tower A), podcast generation, and a
re-verify whose answer is Tower B. -/
def c1Final : StateC :=
  reverifyClick
    (generatePodcast
      (analyzeImage c1Start "data:image/jpeg;base64,QUFB" false (.response c1RespA))
      (.response c1RespPod))
    (.response c1RespB)

/-- C1: the spec invariant says a present derivative podcast script always
carries the current result's title.  The code violates it: a re-verify
that replaces the result does not clear the podcast script, so after the
identify / podcast / re-verify sequence above the retained script still
carries the old title while the result carries the new one. -/
theorem C1_reverify_keeps_stale_podcast_script :
    c1Final.podcastScript.map PodcastScript.title = some "Tower A" ∧
    c1Final.result.map AnalysisResultC.title = some "Tower B" ∧
    c1Final.podcastScript.map PodcastScript.title ≠
      c1Final.result.map AnalysisResultC.title :=
  ⟨rfl, rfl, by decide⟩

/-- A nearby entry whose name differs from the title Louvre only in
letter case. -/
def c2Entry : NearbyLandmark := ⟨"louvre", "1 km", "museum", "fa-landmark"⟩

/-- C2 counterexample: the claim says an entry whose trimmed name
case-insensitively equals the current title is excluded; here the entry
named louvre case-insensitively equals the title Louvre, yet the
displayed list keeps it, because the filter compares the trimmed strings
case-sensitively. -/
theorem C2_case_insensitive_match_not_filtered :
    lowerStr (trimStr c2Entry.name) = lowerStr (trimStr "Louvre") ∧
    visibleLandmarks [c2Entry] "Louvre" = [c2Entry] :=
  ⟨rfl, rfl⟩

/-- C2 (amended): the displayed nearby list keeps exactly the entries
whose trimmed name differs, case-sensitively, from the trimmed current
title. -/
theorem C2_nearby_filter_is_exact_trimmed_inequality
    (landmarks : List NearbyLandmark) (title : String) (l : NearbyLandmark) :
    l ∈ visibleLandmarks landmarks title ↔
      l ∈ landmarks ∧ trimStr l.name ≠ trimStr title := by
  simp [visibleLandmarks, List.mem_filter]

/-- A blank session of the search / nearby variant. -/
def c3Idle : StateB :=
  { searchText := "", isScanning := false, loading := false, nearbyLoading := false,
    narration := ⟨[], none⟩, result := none, allDiscoveredLandmarks := [],
    error := none, calls := 0 }

/-- C3 counterexample: the claim says an empty response body ends in a
surfaced error with the result absent; in fact the empty body is replaced
by the empty object literal before parsing, so the operation succeeds
with no error and stores an empty record as the result. -/
theorem C3_empty_body_stores_empty_record :
    (performAnalysis c3Idle none false (.response "")).error = none ∧
    (performAnalysis c3Idle none false (.response "")).result = some (.jobj []) :=
  ⟨rfl, rfl⟩

/-- C3 (amended): a nonempty response body that fails to parse after the
fences are stripped surfaces the analysis error and leaves the result
exactly as it was; only the empty body takes the silent empty-object
path. -/
theorem C3_unparseable_nonempty_body_errors
    (s : StateB) (imageData : Option String) (keepNearby : Bool) (text : String)
    (hne : text ≠ "") (hp : jsonParse (cleanJsonString text) = none) :
    (performAnalysis s imageData keepNearby (.response text)).error
        = some analysisErrMsgB ∧
    (performAnalysis s imageData keepNearby (.response text)).result = s.result ∧
    (performAnalysis s imageData keepNearby (.response text)).loading = false := by
  unfold performAnalysis jsOrElse
  simp [hne, hp]

/-- C3 witness: the amended theorem applied to the unparseable backend
text hello. -/
theorem C3_unparseable_witness :
    ("hello" ≠ "" ∧ jsonParse (cleanJsonString "hello") = none) ∧
    ((performAnalysis c3Idle none false (.response "hello")).error
        = some analysisErrMsgB ∧
     (performAnalysis c3Idle none false (.response "hello")).result = c3Idle.result ∧
     (performAnalysis c3Idle none false (.response "hello")).loading = false) :=
  ⟨⟨by decide, rfl⟩,
   C3_unparseable_nonempty_body_errors c3Idle none false "hello" (by decide) rfl⟩

/-- C4: submitting the text search with an empty or whitespace-only query
returns before any effect: no backend call is issued (the call counter is
part of the state) and the session state is unchanged, whatever the
backend would have answered. -/
theorem C4_empty_query_is_noop (s : StateB) (outcome : GatewayOutcome)
    (h : trimStr s.searchText = "") :
    handleSearch s outcome = s := by
  unfold handleSearch
  rw [if_pos h]

/-- A session of the search variant whose query box holds only blanks. -/
def c4Blank : StateB :=
  { searchText := "   ", isScanning := true, loading := false, nearbyLoading := false,
    narration := ⟨[], none⟩, result := none, allDiscoveredLandmarks := [],
    error := none, calls := 0 }

/-- C4 witness: a whitespace-only query is a no-op on a concrete state. -/
theorem C4_empty_query_witness :
    trimStr c4Blank.searchText = "" ∧
    handleSearch c4Blank .transportError = c4Blank :=
  ⟨rfl, C4_empty_query_is_noop c4Blank .transportError rfl⟩

/-- C5: podcast generation is confidence-gated; with the result absent or
flagged uncertain the operation returns at once, issuing no backend
request and leaving the whole session state (result, podcast script,
loading flags, call counter) unchanged. -/
theorem C5_podcast_confidence_gated (s : StateC) (outcome : GatewayOutcome)
    (h : s.result = none ∨ ∃ r, s.result = some r ∧ r.uncertain = true) :
    generatePodcast s outcome = s := by
  unfold generatePodcast
  rcases h with h | ⟨r, hr, hu⟩
  · rw [h]
  · rw [hr]
    simp [hu]

/-- A session of the podcast variant presenting an uncertain result. -/
def c5Uncertain : StateC :=
  { image := some "data:image/jpeg;base64,QUFB", isScanning := false, loading := false,
    podcastLoading := false,
    result := some ⟨"معلم غير معروف", "h", "a", [], true, "blurry"⟩,
    podcastScript := none, error := none, calls := 1 }

/-- C5 witness: the gate applied to a concrete uncertain result. -/
theorem C5_podcast_gate_witness :
    (c5Uncertain.result = none ∨
      ∃ r, c5Uncertain.result = some r ∧ r.uncertain = true) ∧
    generatePodcast c5Uncertain .transportError = c5Uncertain :=
  ⟨Or.inr ⟨_, rfl, rfl⟩,
   C5_podcast_confidence_gated c5Uncertain .transportError (Or.inr ⟨_, rfl, rfl⟩)⟩

/-- C6: on any coherent narration state, readText realizes exactly the
specification's transition table — read on the section being spoken
cancels and falls silent without a new utterance; read on another section
while speaking, or from silence, ends up speaking the new section — and
after any call at most one utterance is alive. -/
theorem C6_readText_matches_narration_spec (s : NarrationState)
    (text sectionId : String) (h : NarrationWf s) :
    readText text sectionId s = narrationSpecStep text sectionId s ∧
    (readText text sectionId s).alive.length ≤ 1 := by
  unfold readText narrationSpecStep
  rcases ha : s.active with _ | cur
  · rcases hl : s.alive with _ | ⟨u, us⟩
    · simp
    · simp [ha]
  · have hne : s.alive ≠ [] := h (by rw [ha]; exact fun hc => Option.noConfusion hc)
    have hb : s.alive.isEmpty = false := by
      cases hv : s.alive with
      | nil => exact absurd hv hne
      | cons u us => rfl
    rw [hb]
    by_cases hc : cur = sectionId
    · simp [ha, hc]
    · have : (some cur = some sectionId) = False := by
        simp [hc]
      simp [ha, hc, this]

/-- C6 witness: the theorem applied to the silent state. -/
theorem C6_readText_witness :
    NarrationWf ⟨[], none⟩ ∧
    (readText "x" "history" ⟨[], none⟩ = narrationSpecStep "x" "history" ⟨[], none⟩ ∧
     (readText "x" "history" ⟨[], none⟩).alive.length ≤ 1) :=
  ⟨fun hc => absurd rfl hc,
   C6_readText_matches_narration_spec ⟨[], none⟩ "x" "history" (fun hc => absurd rfl hc)⟩

/-- C7: when the podcast request fails in transport on a confident
presented result, the session keeps presenting: the error message is set,
while the result, the captured image and the (absent) derivative script
are all untouched, and the result in particular is still present. -/
theorem C7_podcast_failure_keeps_result (s : StateC) (r : AnalysisResultC)
    (hr : s.result = some r) (hu : r.uncertain = false) :
    (generatePodcast s .transportError).error = some podcastErrMsgC ∧
    (generatePodcast s .transportError).result = s.result ∧
    (generatePodcast s .transportError).image = s.image ∧
    (generatePodcast s .transportError).podcastScript = s.podcastScript ∧
    (generatePodcast s .transportError).result ≠ none := by
  unfold generatePodcast
  rw [hr]
  simp [hu, hr]

/-- A session of the podcast variant presenting a confident result with
no script yet. -/
def c7Presenting : StateC :=
  { image := some "data:image/jpeg;base64,QUFB", isScanning := false, loading := false,
    podcastLoading := false,
    result := some ⟨"Tower A", "h", "a", [], false, ""⟩,
    podcastScript := none, error := none, calls := 1 }

/-- C7 witness: the theorem applied to a concrete presenting session. -/
theorem C7_podcast_failure_witness :
    (c7Presenting.result = some ⟨"Tower A", "h", "a", [], false, ""⟩ ∧
     (⟨"Tower A", "h", "a", [], false, ""⟩ : AnalysisResultC).uncertain = false) ∧
    ((generatePodcast c7Presenting .transportError).error = some podcastErrMsgC ∧
     (generatePodcast c7Presenting .transportError).result = c7Presenting.result ∧
     (generatePodcast c7Presenting .transportError).image = c7Presenting.image ∧
     (generatePodcast c7Presenting .transportError).podcastScript
        = c7Presenting.podcastScript ∧
     (generatePodcast c7Presenting .transportError).result ≠ none) :=
  ⟨⟨rfl, rfl⟩, C7_podcast_failure_keeps_result c7Presenting _ rfl rfl⟩

/-- C8: the re-verify click re-issues the identify request for the same
captured subject image, with the stricter cross-check sentence added to
the instruction and a strictly lower temperature (0.05 against 0.1), and
a parsed answer wholesale replaces the result — the stored result depends
only on the response, not on the previous session state. -/
theorem C8_reverify_request_contract (img : String) (s₁ s₂ : StateC) (text : String)
    (data : JVal) (himg : s₁.image = some img)
    (hp : jsonParse (jsOrElse text jEmptyObjText) = some data) :
    reverifyClick s₁ (.response text) = analyzeImage s₁ img true (.response text) ∧
    (analyzeRequest img true).imageData = (analyzeRequest img false).imageData ∧
    (analyzeRequest img true).temperature = some ((5 : ℚ) / 100) ∧
    (analyzeRequest img false).temperature = some ((1 : ℚ) / 10) ∧
    ((5 : ℚ) / 100) < ((1 : ℚ) / 10) ∧
    (analyzeRequest img true).promptText
        = analyzePromptHead ++ reverifyNote ++ analyzePromptTail ∧
    (analyzeRequest img false).promptText = analyzePromptHead ++ analyzePromptTail ∧
    reverifyNote ≠ "" ∧
    (analyzeImage s₁ img true (.response text)).result
        = some (normalizeAnalysis data) ∧
    (analyzeImage s₂ img true (.response text)).result
        = some (normalizeAnalysis data) := by
  refine ⟨?_, rfl, rfl, rfl, by norm_num, rfl, rfl, by decide, ?_, ?_⟩
  · unfold reverifyClick
    rw [himg]
  · unfold analyzeImage
    simp [hp]
  · unfold analyzeImage
    simp [hp]

/-- A presenting session of the podcast variant about to be re-verified. -/
def c8Presenting : StateC :=
  { image := some "data:image/jpeg;base64,QUFB", isScanning := false, loading := false,
    podcastLoading := false,
    result := some ⟨"Tower A", "h", "a", [], false, ""⟩,
    podcastScript := none, error := none, calls := 1 }

/-- C8 witness: the contract applied to a concrete session and a concrete
re-verify answer. -/
theorem C8_reverify_witness :
    (c8Presenting.image = some "data:image/jpeg;base64,QUFB" ∧
     jsonParse (jsOrElse "\x7b\"title\":\"Tower B\",\"uncertain\":false\x7d" jEmptyObjText)
        = some (.jobj [("title", .jstr "Tower B"), ("uncertain", .jbool false)])) ∧
    ((analyzeRequest "data:image/jpeg;base64,QUFB" true).temperature
        = some ((5 : ℚ) / 100) ∧
     (analyzeImage c8Presenting "data:image/jpeg;base64,QUFB" true
        (.response "\x7b\"title\":\"Tower B\",\"uncertain\":false\x7d")).result
        = some (normalizeAnalysis
            (.jobj [("title", .jstr "Tower B"), ("uncertain", .jbool false)]))) :=
  ⟨⟨rfl, rfl⟩,
   ⟨(C8_reverify_request_contract "data:image/jpeg;base64,QUFB" c8Presenting c8Presenting
        "\x7b\"title\":\"Tower B\",\"uncertain\":false\x7d"
        (.jobj [("title", .jstr "Tower B"), ("uncertain", .jbool false)]) rfl rfl).2.2.1,
    (C8_reverify_request_contract "data:image/jpeg;base64,QUFB" c8Presenting c8Presenting
        "\x7b\"title\":\"Tower B\",\"uncertain\":false\x7d"
        (.jobj [("title", .jstr "Tower B"), ("uncertain", .jbool false)]) rfl rfl).2.2.2.2.2.2.2.2.1⟩⟩

/-- C9: starting a new acquisition, from any state, clears the current
result, the error, the discovered nearby list and the active narration
section, kills every alive utterance, and its external calls cancel
speech strictly before requesting the device stream. -/
theorem C9_startCamera_clears_session (s : StateB) :
    (startCamera s).1.result = none ∧
    (startCamera s).1.error = none ∧
    (startCamera s).1.allDiscoveredLandmarks = [] ∧
    (startCamera s).1.narration.active = none ∧
    (startCamera s).1.narration.alive = [] ∧
    (startCamera s).1.isScanning = true ∧
    (startCamera s).2 = [ExtCall.speechCancel, ExtCall.requestStream] := by
  simp [startCamera, cancelSpeech]

/-- C10: the fence-stripping normalizer cleanJsonString is idempotent, its
output contains no three-backquote fence marker (hence none of the
fence-json marker either), and its output is its own trim — no leading or
trailing whitespace remains. -/
theorem C10_cleanJsonString_idempotent_fenceless_trimmed (s : String) :
    cleanJsonString (cleanJsonString s) = cleanJsonString s ∧
    ¬ fence <:+: (cleanJsonString s).toList ∧
    trimStr (cleanJsonString s) = cleanJsonString s := by
  have hnf : ¬ fence <:+: trimL (removeFence (removeFenceJson s.toList)) := fun h =>
    removeFence_no_fence (removeFenceJson s.toList)
      (List.IsInfix.trans h (trimL_within _))
  have hnfj : ¬ fenceJson <:+: trimL (removeFence (removeFenceJson s.toList)) := fun h =>
    hnf (List.IsInfix.trans fence_pref_fenceJson.isInfix h)
  refine ⟨?_, hnf, ?_⟩
  · show String.mk (trimL (removeFence (removeFenceJson
        (trimL (removeFence (removeFenceJson s.toList)))))) = cleanJsonString s
    rw [removeFenceJson_eq_self hnfj, removeFence_eq_self hnf, trimL_idem]
    rfl
  · show String.mk (trimL (trimL (removeFence (removeFenceJson s.toList)))) =
        cleanJsonString s
    rw [trimL_idem]
    rfl
